import Mathlib

set_option linter.unusedVariables false

/-!
Verification development for the `tempswap` repository: a hash-and-timeout
lock ledger (atomic-swap engine) consisting of an on-chain contract
(present in the repository as its ABI, `src/unnamed/part_000`) and a
JavaScript client (`src/frontend/src/lib/blockchain-context.js`).

The development has three layers:
1. a byte-level model of Solidity tight packing and the client's
   `calculateLockId` (parameterised over the keccak256 primitive, which is
   an external library function);
2. a faithful embedding of the contract ABI (errors, events, functions)
   as Lean data;
3. a state-machine model of the Lock Ledger operations.  The contract
   body is not part of the repository sources, so the operations are
   modelled from the specification (each such definition says so in its
   doc comment).
-/

/-- Big-endian byte encoding of a natural number on `k` bytes
(the low `k` bytes of `n`, as Solidity tight packing does for a
`uintN`/`address`/`bytesN` slot of `k` bytes). -/
def toBytesBE : Nat → Nat → List Nat
  | 0, _ => []
  | k + 1, n => toBytesBE k (n / 256) ++ [n % 256]

/-- Value of a big-endian byte list. -/
def ofBytesBE (l : List Nat) : Nat :=
  l.foldl (fun a b => a * 256 + b) 0

theorem toBytesBE_length (k n : Nat) : (toBytesBE k n).length = k := by
  induction k generalizing n with
  | zero => rfl
  | succ k ih =>
    simp [toBytesBE, ih]

theorem ofBytesBE_append_singleton (l : List Nat) (b : Nat) :
    ofBytesBE (l ++ [b]) = ofBytesBE l * 256 + b := by
  simp [ofBytesBE, List.foldl_append]

theorem ofBytesBE_toBytesBE (k n : Nat) :
    ofBytesBE (toBytesBE k n) = n % 256 ^ k := by
  induction k generalizing n with
  | zero => simp [toBytesBE, ofBytesBE, Nat.mod_one]
  | succ k ih =>
    rw [toBytesBE, ofBytesBE_append_singleton, ih,
      ← Nat.mod_mul_right_div_self,
      ← Nat.mod_mod_of_dvd n (dvd_mul_right 256 (256 ^ k)),
      pow_succ, mul_comm (256 ^ k) 256]
    generalize n % (256 * 256 ^ k) = m
    omega

/-- Solidity tight packing of `(address, address, bytes32, uint256)`,
as performed by `ethers.solidityPackedKeccak256` in the client's
`calculateLockId`: 20 + 20 + 32 + 32 big-endian bytes. -/
def solidityPack (token creator hashedSecret timeout : Nat) : List Nat :=
  toBytesBE 20 token ++ toBytesBE 20 creator ++
    toBytesBE 32 hashedSecret ++ toBytesBE 32 timeout

/-- The client's `calculateLockId` (blockchain-context.js, lines
1355-1361): keccak256 of the tightly packed tuple
`(tokenAddress, creator, hashedSecret, timeout)`.  `keccak256` is the
external ethers primitive, taken as a parameter. -/
def calculateLockId (keccak256 : List Nat → Nat)
    (tokenAddress creator hashedSecret timeout : Nat) : Nat :=
  keccak256 (solidityPack tokenAddress creator hashedSecret timeout)

/-- The lock id the client's `lockSell` computes as a fallback when the
receipt carries no `lockId` (blockchain-context.js, line 1177):
`calculateLockId(tokenAddress, account, hashedSecret, timeoutInt)`.
It receives the full creation parameter list but uses neither
`recipient` nor `value` nor the counter-leg metadata. -/
def lockSellComputedLockId (keccak256 : List Nat → Nat) (account : Nat)
    (tokenAddress recipient hashedSecret timeout value buyAssetId buyLockId : Nat) :
    Nat :=
  calculateLockId keccak256 tokenAddress account hashedSecret timeout

/-! ## The contract ABI (src/unnamed/part_000), embedded as data

Each entry of the JSON array is translated to one Lean value.  For a
parameter we keep its `name`, its `type` and (for events) its `indexed`
flag; `internalType` refines `address` to `contract ERC20` for the token
parameters and is kept as the type string would collapse it. -/

/-- One ABI input/output parameter: name, solidity type, indexed flag
(meaningful for events only; `false` elsewhere). -/
structure AbiParam where
  name : String
  ty : String
  indexed : Bool
deriving DecidableEq, Repr

/-- One entry of the ABI JSON array. `kind` is the JSON `type` field
(`error`, `event` or `function`), `mutability` the `stateMutability`
field when present. -/
structure AbiEntry where
  kind : String
  name : String
  inputs : List AbiParam
  outputs : List AbiParam
  mutability : Option String
deriving DecidableEq, Repr

def lockAlreadyExistsError : AbiEntry :=
  ⟨"error", "LockAlreadyExists", [⟨"lockId", "bytes32", false⟩], [], none⟩

def lockNotFoundError : AbiEntry :=
  ⟨"error", "LockNotFound", [⟨"lockId", "bytes32", false⟩], [], none⟩

def lockNotTimedOutError : AbiEntry :=
  ⟨"error", "LockNotTimedOut", [⟨"lockId", "bytes32", false⟩], [], none⟩

def lockTimedOutError : AbiEntry :=
  ⟨"error", "LockTimedOut", [⟨"lockId", "bytes32", false⟩], [], none⟩

def transferInFailedError : AbiEntry :=
  ⟨"error", "TransferInFailed",
    [⟨"token", "address", false⟩, ⟨"from", "address", false⟩,
     ⟨"value", "uint256", false⟩], [], none⟩

def transferOutFailedError : AbiEntry :=
  ⟨"error", "TransferOutFailed",
    [⟨"token", "address", false⟩, ⟨"to", "address", false⟩,
     ⟨"value", "uint256", false⟩], [], none⟩

def declineEvent : AbiEntry :=
  ⟨"event", "Decline",
    [⟨"token", "address", true⟩, ⟨"creator", "address", true⟩,
     ⟨"recipient", "address", true⟩, ⟨"lockId", "bytes32", false⟩], [], none⟩

def lockBuyEvent : AbiEntry :=
  ⟨"event", "LockBuy",
    [⟨"token", "address", true⟩, ⟨"creator", "address", true⟩,
     ⟨"recipient", "address", true⟩, ⟨"hashedSecret", "bytes32", false⟩,
     ⟨"timeout", "uint256", false⟩, ⟨"value", "uint256", false⟩,
     ⟨"sellAssetId", "bytes32", false⟩, ⟨"sellPrice", "uint256", false⟩,
     ⟨"lockId", "bytes32", false⟩], [], none⟩

def lockSellEvent : AbiEntry :=
  ⟨"event", "LockSell",
    [⟨"token", "address", true⟩, ⟨"creator", "address", true⟩,
     ⟨"recipient", "address", true⟩, ⟨"hashedSecret", "bytes32", false⟩,
     ⟨"timeout", "uint256", false⟩, ⟨"value", "uint256", false⟩,
     ⟨"buyAssetId", "bytes32", false⟩, ⟨"buyLockId", "bytes32", false⟩], [], none⟩

def retrieveEvent : AbiEntry :=
  ⟨"event", "Retrieve",
    [⟨"token", "address", true⟩, ⟨"creator", "address", true⟩,
     ⟨"recipient", "address", true⟩, ⟨"lockId", "bytes32", false⟩], [], none⟩

def unlockEvent : AbiEntry :=
  ⟨"event", "Unlock",
    [⟨"token", "address", true⟩, ⟨"creator", "address", true⟩,
     ⟨"recipient", "address", true⟩, ⟨"lockId", "bytes32", false⟩,
     ⟨"secret", "bytes32", false⟩], [], none⟩

def declineFn : AbiEntry :=
  ⟨"function", "decline",
    [⟨"token", "address", false⟩, ⟨"creator", "address", false⟩,
     ⟨"hashedSecret", "bytes32", false⟩, ⟨"timeout", "uint256", false⟩],
    [], some "nonpayable"⟩

def getLockValueFn : AbiEntry :=
  ⟨"function", "getLockValue",
    [⟨"lockId", "bytes32", false⟩],
    [⟨"value", "uint256", false⟩], some "view"⟩

def lockBuyFn : AbiEntry :=
  ⟨"function", "lockBuy",
    [⟨"token", "address", false⟩, ⟨"recipient", "address", false⟩,
     ⟨"hashedSecret", "bytes32", false⟩, ⟨"timeout", "uint256", false⟩,
     ⟨"value", "uint256", false⟩, ⟨"sellAssetId", "bytes32", false⟩,
     ⟨"sellPrice", "uint256", false⟩], [], some "nonpayable"⟩

def lockSellFn : AbiEntry :=
  ⟨"function", "lockSell",
    [⟨"token", "address", false⟩, ⟨"recipient", "address", false⟩,
     ⟨"hashedSecret", "bytes32", false⟩, ⟨"timeout", "uint256", false⟩,
     ⟨"value", "uint256", false⟩, ⟨"buyAssetId", "bytes32", false⟩,
     ⟨"buyLockId", "bytes32", false⟩], [], some "nonpayable"⟩

def retrieveFn : AbiEntry :=
  ⟨"function", "retrieve",
    [⟨"token", "address", false⟩, ⟨"recipient", "address", false⟩,
     ⟨"hashedSecret", "bytes32", false⟩, ⟨"timeout", "uint256", false⟩],
    [], some "nonpayable"⟩

def unlockFn : AbiEntry :=
  ⟨"function", "unlock",
    [⟨"token", "address", false⟩, ⟨"creator", "address", false⟩,
     ⟨"secret", "bytes32", false⟩, ⟨"timeout", "uint256", false⟩],
    [], some "nonpayable"⟩

/-- The full ABI array, in file order. -/
def swapAbi : List AbiEntry :=
  [lockAlreadyExistsError, lockNotFoundError, lockNotTimedOutError,
   lockTimedOutError, transferInFailedError, transferOutFailedError,
   declineEvent, lockBuyEvent, lockSellEvent, retrieveEvent, unlockEvent,
   declineFn, getLockValueFn, lockBuyFn, lockSellFn, retrieveFn, unlockFn]

/-- The five state-transition event entries of the ABI. -/
def swapAbiEvents : List AbiEntry :=
  swapAbi.filter (fun e => e.kind == "event")

/-- Names of an entry's parameters. -/
def paramNames (e : AbiEntry) : List String :=
  e.inputs.map AbiParam.name

/-! ## The Lock Ledger state machine

The contract body is absent from the repository sources (only its ABI
and its JavaScript callers are present), so the five operations are
modelled from the specification (spec.md §3, §4.1, §7).  Addresses,
bytes32 words and uint256 amounts are all modelled as `Nat`; the
keccak256 primitive is a parameter `H`, used both for the secret
commitment and for lock-identity derivation, exactly as the observed
interface does. -/

/-- Modelled from the spec: the six failure modes of §7, each carrying
the structured detail the spec lists (`lockId` for the four lock errors;
asset, counterparty account and amount for the two transfer failures). -/
inductive SwapError where
  | LockAlreadyExists (lockId : Nat)
  | LockNotFound (lockId : Nat)
  | LockNotTimedOut (lockId : Nat)
  | LockTimedOut (lockId : Nat)
  | TransferInFailed (token fromAcct value : Nat)
  | TransferOutFailed (token toAcct value : Nat)
deriving DecidableEq, Repr

/-- Modelled from the spec: the persisted lock record of §6,
`lockId → {assetContract, creator, recipient, hashedSecret, timeout, value}`. -/
structure Lock where
  token : Nat
  creator : Nat
  recipient : Nat
  hashedSecret : Nat
  timeout : Nat
  value : Nat
deriving DecidableEq, Repr

/-- Modelled from the spec: the single keyed table of §6, with
presence/absence of a `lockId` key encoding open/closed. -/
abbrev LockState := List (Nat × Lock)

/-- Modelled from the spec: lock-identity derivation of §4.1,
`lockId = H(assetContract ‖ creator ‖ hashedSecret ‖ timeout)` — the same
packing the client's `calculateLockId` uses. -/
def lockIdOf (H : List Nat → Nat) (token creator hashedSecret timeout : Nat) : Nat :=
  H (solidityPack token creator hashedSecret timeout)

/-- Look up an open lock by id. -/
def findLock (s : LockState) (lockId : Nat) : Option Lock :=
  List.lookup lockId s

/-- Record a new open lock. -/
def insertLock (s : LockState) (lockId : Nat) (l : Lock) : LockState :=
  (lockId, l) :: s

/-- Close (remove) a lock. -/
def eraseLock (s : LockState) (lockId : Nat) : LockState :=
  s.filter (fun p => p.1 != lockId)

/-- Modelled from the spec: create-as-buy (§4.1).  `caller` funds the
lock and becomes `creator`; `transferIn token fromAcct value` is the
custody-pull collaborator returning success/failure.  The creation
record's extra fields (`sellAssetId`, `sellPrice`) are emitted-only
metadata and do not enter the stored record. -/
def lockBuy (H : List Nat → Nat) (transferIn : Nat → Nat → Nat → Bool)
    (caller : Nat) (token recipient hashedSecret timeout value sellAssetId sellPrice : Nat)
    (s : LockState) : Except SwapError LockState :=
  let lockId := lockIdOf H token caller hashedSecret timeout
  match findLock s lockId with
  | some _ => .error (.LockAlreadyExists lockId)
  | none =>
    if transferIn token caller value then
      .ok (insertLock s lockId ⟨token, caller, recipient, hashedSecret, timeout, value⟩)
    else
      .error (.TransferInFailed token caller value)

/-- Modelled from the spec: create-as-sell (§4.1), same preconditions and
effects as create-as-buy; `buyAssetId` and `buyLockId` are emitted-only
metadata. -/
def lockSell (H : List Nat → Nat) (transferIn : Nat → Nat → Nat → Bool)
    (caller : Nat) (token recipient hashedSecret timeout value buyAssetId buyLockId : Nat)
    (s : LockState) : Except SwapError LockState :=
  let lockId := lockIdOf H token caller hashedSecret timeout
  match findLock s lockId with
  | some _ => .error (.LockAlreadyExists lockId)
  | none =>
    if transferIn token caller value then
      .ok (insertLock s lockId ⟨token, caller, recipient, hashedSecret, timeout, value⟩)
    else
      .error (.TransferInFailed token caller value)

/-- Modelled from the spec: unlock (§4.1).  Recomputes
`hashedSecret = H(secret)` (the 32-byte word of the revealed secret),
derives the lock id, requires the lock open, the current time strictly
before the stored timeout, and the caller to equal the stored recipient
(the spec names no dedicated unauthorized error; an unauthorized caller
is modelled as `LockNotFound`, the catch-all for invalid resolution).
Pays the custodied value to the caller via `transferOut`. -/
def unlock (H : List Nat → Nat) (transferOut : Nat → Nat → Nat → Bool)
    (now caller : Nat) (token creator secret timeout : Nat)
    (s : LockState) : Except SwapError LockState :=
  let hashedSecret := H (toBytesBE 32 secret)
  let lockId := lockIdOf H token creator hashedSecret timeout
  match findLock s lockId with
  | none => .error (.LockNotFound lockId)
  | some l =>
    if l.timeout ≤ now then .error (.LockTimedOut lockId)
    else if caller ≠ l.recipient then .error (.LockNotFound lockId)
    else if transferOut token caller l.value then .ok (eraseLock s lockId)
    else .error (.TransferOutFailed token caller l.value)

/-- Modelled from the spec: retrieve (§4.1).  The caller is treated as
`creator` for id derivation; `recipient` is accepted only for record
clarity and does not enter the derivation.  Requires the lock open and
the current time at or after the stored timeout; returns the custodied
value to the caller. -/
def retrieve (H : List Nat → Nat) (transferOut : Nat → Nat → Nat → Bool)
    (now caller : Nat) (token recipient hashedSecret timeout : Nat)
    (s : LockState) : Except SwapError LockState :=
  let lockId := lockIdOf H token caller hashedSecret timeout
  match findLock s lockId with
  | none => .error (.LockNotFound lockId)
  | some l =>
    if now < l.timeout then .error (.LockNotTimedOut lockId)
    else if transferOut token caller l.value then .ok (eraseLock s lockId)
    else .error (.TransferOutFailed token caller l.value)

/-- Modelled from the spec: decline (§4.1).  The caller is the recipient;
`creator` is an explicit parameter.  Requires the lock open, the current
time strictly before the stored timeout, and the caller to equal the
stored recipient (unauthorized modelled as `LockNotFound`, as in
`unlock`).  Returns the custodied value to `creator`. -/
def decline (H : List Nat → Nat) (transferOut : Nat → Nat → Nat → Bool)
    (now caller : Nat) (token creator hashedSecret timeout : Nat)
    (s : LockState) : Except SwapError LockState :=
  let lockId := lockIdOf H token creator hashedSecret timeout
  match findLock s lockId with
  | none => .error (.LockNotFound lockId)
  | some l =>
    if l.timeout ≤ now then .error (.LockTimedOut lockId)
    else if caller ≠ l.recipient then .error (.LockNotFound lockId)
    else if transferOut token creator l.value then .ok (eraseLock s lockId)
    else .error (.TransferOutFailed token creator l.value)

/-- Modelled from the spec: getLockValue (§4.1).  Read-only: returns the
custodied value of an open lock, or the not-found condition when the
lock does not exist or has been resolved.  It returns no state at all,
so it cannot mutate the table. -/
def getLockValue (s : LockState) (lockId : Nat) : Except SwapError Nat :=
  match findLock s lockId with
  | some l => .ok l.value
  | none => .error (.LockNotFound lockId)

/-- The state observed after running an operation: on success the new
table, on any error the table exactly as before the call (spec §5/§7:
every error aborts the operation wholesale). -/
def stepState (r : Except SwapError LockState) (s : LockState) : LockState :=
  match r with
  | .ok s' => s'
  | .error _ => s

/-! ## The JavaScript client wrappers (blockchain-context.js) -/

/-- The amount the client's `lockBuy` submits (lines 857-869): with
`useRawValue` the input is parsed as-is, otherwise it is first scaled by
10^6 (`value = value*1000000`). -/
def lockBuyValueWei (useRawValue : Bool) (value : Nat) : Nat :=
  if useRawValue then value else value * 1000000

/-- The amount the client's `lockSell` submits (lines 1085-1097): BOTH
branches scale by 10^6 — the `useRawValue` branch also executes
`value = value*1000000` before parsing. -/
def lockSellValueWei (useRawValue : Bool) (value : Nat) : Nat :=
  if useRawValue then value * 1000000 else value * 1000000

/-- `ethers.ZeroHash`: the 32-byte zero word as a hex string. -/
def zeroHash : String :=
  "0x" ++ String.mk (List.replicate 64 '0')

/-- `lockSell`'s bytes32 formatting (lines 1099-1105): keep the input
when it is a non-empty `0x…` string, else substitute `ethers.ZeroHash`.
(A JS-falsy empty string does not start with `0x`, so the two JS
conditions collapse to the single `startsWith` test.) -/
def formatBytes32OrZero (s : String) : String :=
  if s.startsWith "0x" then s else zeroHash

/-- The full parameter tuple the client's `lockSell` passes to the
contract call (lines 1144-1153): token, recipient, hashedSecret, the
integer timeout, the scaled amount, and the two formatted bytes32
fields. -/
def lockSellTxParams (useRawValue : Bool)
    (tokenAddress recipient hashedSecret : String) (timeout value : Nat)
    (buyAssetId buyLockId : String) :
    String × String × String × Nat × Nat × String × String :=
  (tokenAddress, recipient, hashedSecret, timeout,
   lockSellValueWei useRawValue value,
   formatBytes32OrZero buyAssetId, formatBytes32OrZero buyLockId)

/-- The client's `getLockValue` (lines 1364-1373).  `connected` is
whether `swapContract` is non-null; `call lockId` is the outcome of the
awaited contract call (`.error` when the call rejects, e.g. with
`LockNotFound`); `formatEther` is the external ethers 18-decimal
formatter.  Returns "0" when not connected or on any call failure,
otherwise the formatted on-chain value. -/
def clientGetLockValue (formatEther : Nat → String) (connected : Bool)
    (call : Nat → Except Unit Nat) (lockId : Nat) : String :=
  if !connected then "0"
  else
    match call lockId with
    | .ok v => formatEther v
    | .error _ => "0"

/-! ## Helper lemmas about the lock table -/

theorem findLock_insertLock_self (s : LockState) (lid : Nat) (l : Lock) :
    findLock (insertLock s lid l) lid = some l := by
  simp [findLock, insertLock, List.lookup]

theorem findLock_eraseLock_self (s : LockState) (lid : Nat) :
    findLock (eraseLock s lid) lid = none := by
  induction s with
  | nil => rfl
  | cons p s ih =>
    rcases p with ⟨k, l⟩
    by_cases h : k = lid
    · have hb : ((k, l).1 != lid) = false := by simp [h]
      rw [eraseLock, List.filter_cons, hb]
      exact ih
    · have hb : ((k, l).1 != lid) = true := by simp [h]
      have hk : (lid == k) = false := by simp [Ne.symm h]
      rw [eraseLock, List.filter_cons, hb]
      show List.lookup lid ((k, l) :: List.filter (fun p => p.1 != lid) s) = none
      simp only [List.lookup_cons, hk]
      exact ih

theorem unlock_eq_of_found (H : List Nat → Nat) (tOut : Nat → Nat → Nat → Bool)
    (now caller token creator secret timeout : Nat) (s : LockState) (l : Lock)
    (h : findLock s (lockIdOf H token creator (H (toBytesBE 32 secret)) timeout) = some l) :
    unlock H tOut now caller token creator secret timeout s =
      (if l.timeout ≤ now then
        .error (.LockTimedOut (lockIdOf H token creator (H (toBytesBE 32 secret)) timeout))
      else if caller ≠ l.recipient then
        .error (.LockNotFound (lockIdOf H token creator (H (toBytesBE 32 secret)) timeout))
      else if tOut token caller l.value then
        .ok (eraseLock s (lockIdOf H token creator (H (toBytesBE 32 secret)) timeout))
      else .error (.TransferOutFailed token caller l.value)) := by
  simp only [unlock]
  rw [h]

theorem decline_eq_of_found (H : List Nat → Nat) (tOut : Nat → Nat → Nat → Bool)
    (now caller token creator hashedSecret timeout : Nat) (s : LockState) (l : Lock)
    (h : findLock s (lockIdOf H token creator hashedSecret timeout) = some l) :
    decline H tOut now caller token creator hashedSecret timeout s =
      (if l.timeout ≤ now then
        .error (.LockTimedOut (lockIdOf H token creator hashedSecret timeout))
      else if caller ≠ l.recipient then
        .error (.LockNotFound (lockIdOf H token creator hashedSecret timeout))
      else if tOut token creator l.value then
        .ok (eraseLock s (lockIdOf H token creator hashedSecret timeout))
      else .error (.TransferOutFailed token creator l.value)) := by
  simp only [decline]
  rw [h]

theorem retrieve_eq_of_found (H : List Nat → Nat) (tOut : Nat → Nat → Nat → Bool)
    (now caller token recipient hashedSecret timeout : Nat) (s : LockState) (l : Lock)
    (h : findLock s (lockIdOf H token caller hashedSecret timeout) = some l) :
    retrieve H tOut now caller token recipient hashedSecret timeout s =
      (if now < l.timeout then
        .error (.LockNotTimedOut (lockIdOf H token caller hashedSecret timeout))
      else if tOut token caller l.value then
        .ok (eraseLock s (lockIdOf H token caller hashedSecret timeout))
      else .error (.TransferOutFailed token caller l.value)) := by
  simp only [retrieve]
  rw [h]

theorem lockBuy_eq_of_none (H : List Nat → Nat) (tIn : Nat → Nat → Nat → Bool)
    (caller token recipient hashedSecret timeout value sellAssetId sellPrice : Nat)
    (s : LockState)
    (h : findLock s (lockIdOf H token caller hashedSecret timeout) = none) :
    lockBuy H tIn caller token recipient hashedSecret timeout value sellAssetId sellPrice s =
      (if tIn token caller value then
        .ok (insertLock s (lockIdOf H token caller hashedSecret timeout)
          ⟨token, caller, recipient, hashedSecret, timeout, value⟩)
      else .error (.TransferInFailed token caller value)) := by
  simp only [lockBuy]
  rw [h]

theorem lockBuy_eq_of_found (H : List Nat → Nat) (tIn : Nat → Nat → Nat → Bool)
    (caller token recipient hashedSecret timeout value sellAssetId sellPrice : Nat)
    (s : LockState) (l : Lock)
    (h : findLock s (lockIdOf H token caller hashedSecret timeout) = some l) :
    lockBuy H tIn caller token recipient hashedSecret timeout value sellAssetId sellPrice s =
      .error (.LockAlreadyExists (lockIdOf H token caller hashedSecret timeout)) := by
  simp only [lockBuy]
  rw [h]

theorem lockSell_eq_of_none (H : List Nat → Nat) (tIn : Nat → Nat → Nat → Bool)
    (caller token recipient hashedSecret timeout value buyAssetId buyLockId : Nat)
    (s : LockState)
    (h : findLock s (lockIdOf H token caller hashedSecret timeout) = none) :
    lockSell H tIn caller token recipient hashedSecret timeout value buyAssetId buyLockId s =
      (if tIn token caller value then
        .ok (insertLock s (lockIdOf H token caller hashedSecret timeout)
          ⟨token, caller, recipient, hashedSecret, timeout, value⟩)
      else .error (.TransferInFailed token caller value)) := by
  simp only [lockSell]
  rw [h]

theorem lockSell_eq_of_found (H : List Nat → Nat) (tIn : Nat → Nat → Nat → Bool)
    (caller token recipient hashedSecret timeout value buyAssetId buyLockId : Nat)
    (s : LockState) (l : Lock)
    (h : findLock s (lockIdOf H token caller hashedSecret timeout) = some l) :
    lockSell H tIn caller token recipient hashedSecret timeout value buyAssetId buyLockId s =
      .error (.LockAlreadyExists (lockIdOf H token caller hashedSecret timeout)) := by
  simp only [lockSell]
  rw [h]

/-! ## Claims -/

/-- Claim C1: the lock identity is the keccak256 hash of the tightly
packed encoding of exactly `(assetContract, creator, hashedSecret,
timeout)`; the derivation is a deterministic pure function, so equal
tuples yield equal lockIds, and neither `recipient` nor `value` (nor the
counter-leg metadata) influences the result — witnessed by the client's
`lockSell`, which receives them all and derives the id without them. -/
theorem claim1_lockId_pure_function (K : List Nat → Nat)
    (account tokenAddress creator hashedSecret timeout : Nat)
    (tokenAddress' creator' hashedSecret' timeout' : Nat)
    (recipient value buyAssetId buyLockId recipient' value' buyAssetId' buyLockId' : Nat)
    (ht : tokenAddress = tokenAddress') (hc : creator = creator')
    (hh : hashedSecret = hashedSecret') (hto : timeout = timeout') :
    calculateLockId K tokenAddress creator hashedSecret timeout
        = K (solidityPack tokenAddress creator hashedSecret timeout)
      ∧ calculateLockId K tokenAddress creator hashedSecret timeout
        = calculateLockId K tokenAddress' creator' hashedSecret' timeout'
      ∧ lockSellComputedLockId K account tokenAddress recipient hashedSecret timeout
          value buyAssetId buyLockId
        = lockSellComputedLockId K account tokenAddress recipient' hashedSecret timeout
          value' buyAssetId' buyLockId' := by
  subst ht hc hh hto
  exact ⟨rfl, rfl, rfl⟩

/-- Witness for C1 at a concrete input (hash instantiated with the
byte-list value function). -/
theorem claim1_witness :
    calculateLockId ofBytesBE 1 2 3 4 = ofBytesBE (solidityPack 1 2 3 4)
    ∧ calculateLockId ofBytesBE 1 2 3 4 = calculateLockId ofBytesBE 1 2 3 4
    ∧ lockSellComputedLockId ofBytesBE 9 1 5 3 4 10 11 12
      = lockSellComputedLockId ofBytesBE 9 1 6 3 4 20 21 22 :=
  claim1_lockId_pure_function ofBytesBE 9 1 2 3 4 1 2 3 4 5 10 11 12 6 20 21 22
    rfl rfl rfl rfl

/-- Claim C2 counterexample: the sell-creation record (`LockSell` event)
carries NO `lockId` field, so the claim that every state-transition
record contains at minimum `token, creator, recipient, lockId` — and in
particular that the sell-creation record contains one — is false on the
ABI. -/
theorem claim2_counterexample :
    lockSellEvent ∈ swapAbiEvents ∧ "lockId" ∉ paramNames lockSellEvent := by
  constructor
  · decide
  · decide

/-- Claim C2, amended: every one of the five state-transition records
contains `token, creator, recipient`; the `LockBuy`, `Retrieve`,
`Unlock` and `Decline` records also contain `lockId`; the sell-creation
record instead carries exactly its operation-specific fields
`hashedSecret, timeout, value, buyAssetId, buyLockId` and no `lockId`
(the client recomputes the id locally when it is absent). -/
theorem claim2_event_records :
    swapAbiEvents = [declineEvent, lockBuyEvent, lockSellEvent, retrieveEvent, unlockEvent]
    ∧ paramNames declineEvent = ["token", "creator", "recipient", "lockId"]
    ∧ paramNames lockBuyEvent = ["token", "creator", "recipient", "hashedSecret",
        "timeout", "value", "sellAssetId", "sellPrice", "lockId"]
    ∧ paramNames lockSellEvent = ["token", "creator", "recipient", "hashedSecret",
        "timeout", "value", "buyAssetId", "buyLockId"]
    ∧ paramNames retrieveEvent = ["token", "creator", "recipient", "lockId"]
    ∧ paramNames unlockEvent = ["token", "creator", "recipient", "lockId", "secret"]
    ∧ "lockId" ∉ paramNames lockSellEvent := by
  refine ⟨rfl, rfl, rfl, rfl, rfl, rfl, ?_⟩
  decide

/-- Claim C7: the failure modes declared by the contract ABI are exactly
the six errors `LockAlreadyExists, LockNotFound, LockNotTimedOut,
LockTimedOut, TransferInFailed, TransferOutFailed` — each an ABI `error`
(a hard revert surfaced to the caller) — carrying the `lockId` for the
four lock errors and the asset, counterparty account and amount for the
two transfer failures. -/
theorem claim7_error_taxonomy :
    swapAbi.filter (fun e => e.kind == "error")
      = [lockAlreadyExistsError, lockNotFoundError, lockNotTimedOutError,
         lockTimedOutError, transferInFailedError, transferOutFailedError]
    ∧ (swapAbi.filter (fun e => e.kind == "error")).map AbiEntry.name
      = ["LockAlreadyExists", "LockNotFound", "LockNotTimedOut",
         "LockTimedOut", "TransferInFailed", "TransferOutFailed"]
    ∧ lockAlreadyExistsError.inputs = [⟨"lockId", "bytes32", false⟩]
    ∧ lockNotFoundError.inputs = [⟨"lockId", "bytes32", false⟩]
    ∧ lockNotTimedOutError.inputs = [⟨"lockId", "bytes32", false⟩]
    ∧ lockTimedOutError.inputs = [⟨"lockId", "bytes32", false⟩]
    ∧ transferInFailedError.inputs
      = [⟨"token", "address", false⟩, ⟨"from", "address", false⟩,
         ⟨"value", "uint256", false⟩]
    ∧ transferOutFailedError.inputs
      = [⟨"token", "address", false⟩, ⟨"to", "address", false⟩,
         ⟨"value", "uint256", false⟩] :=
  ⟨rfl, rfl, rfl, rfl, rfl, rfl, rfl, rfl⟩

/-- Claim C9: in the client's `lockSell`, the `useRawValue` flag has no
effect — both branches compute `value * 1000000`, so the submitted
transaction tuples are identical — unlike `lockBuy`, where
`useRawValue = true` suppresses the 10^6 scaling. -/
theorem claim9_lockSell_useRawValue_noop (tokenAddress recipient hashedSecret : String)
    (timeout value : Nat) (buyAssetId buyLockId : String) :
    lockSellTxParams true tokenAddress recipient hashedSecret timeout value
        buyAssetId buyLockId
      = lockSellTxParams false tokenAddress recipient hashedSecret timeout value
        buyAssetId buyLockId
    ∧ lockSellValueWei true value = value * 1000000
    ∧ lockSellValueWei false value = value * 1000000
    ∧ lockBuyValueWei true value = value
    ∧ lockBuyValueWei false value = value * 1000000 :=
  ⟨rfl, rfl, rfl, rfl, rfl⟩

/-- Claim C10: the client's `getLockValue` wrapper is total and never
throws: it returns "0" when no swap contract is connected or when the
underlying call fails, and otherwise the on-chain value formatted via
`formatEther`. -/
theorem claim10_clientGetLockValue_total (formatEther : Nat → String)
    (call : Nat → Except Unit Nat) (lockId v : Nat) :
    clientGetLockValue formatEther false call lockId = "0"
    ∧ (call lockId = .error () → clientGetLockValue formatEther true call lockId = "0")
    ∧ (call lockId = .ok v → clientGetLockValue formatEther true call lockId = formatEther v) := by
  refine ⟨rfl, ?_, ?_⟩ <;> intro h <;> simp [clientGetLockValue, h]

/-- Witness for C10 at concrete inputs: a failing call and a successful
call returning 5. -/
theorem claim10_witness :
    clientGetLockValue (fun n => toString n) false (fun _ => .ok 5) 9 = "0"
    ∧ clientGetLockValue (fun n => toString n) true (fun _ => .error ()) 9 = "0"
    ∧ clientGetLockValue (fun n => toString n) true (fun _ => .ok 5) 9 = toString 5 :=
  ⟨(claim10_clientGetLockValue_total (fun n => toString n) (fun _ => .ok 5) 9 5).1,
   (claim10_clientGetLockValue_total (fun n => toString n) (fun _ => .error ()) 9 5).2.1 rfl,
   (claim10_clientGetLockValue_total (fun n => toString n) (fun _ => .ok 5) 9 5).2.2 rfl⟩

theorem unlock_eq_of_none (H : List Nat → Nat) (tOut : Nat → Nat → Nat → Bool)
    (now caller token creator secret timeout : Nat) (s : LockState)
    (h : findLock s (lockIdOf H token creator (H (toBytesBE 32 secret)) timeout) = none) :
    unlock H tOut now caller token creator secret timeout s =
      .error (.LockNotFound (lockIdOf H token creator (H (toBytesBE 32 secret)) timeout)) := by
  simp only [unlock]
  rw [h]

/-- Claim C3: for every open lock, unlock and decline succeed only when
the current time is strictly before the lock's timeout and fail with
`LockTimedOut` when attempted at or after it, while retrieve succeeds
only at or after the timeout and fails with `LockNotTimedOut` before
it. -/
theorem claim3_timing_windows (H : List Nat → Nat) (tOut : Nat → Nat → Nat → Bool)
    (now caller token creator recipient secret hashedSecret timeout : Nat)
    (s : LockState) (lU lD lR : Lock)
    (hU : findLock s (lockIdOf H token creator (H (toBytesBE 32 secret)) timeout) = some lU)
    (hD : findLock s (lockIdOf H token creator hashedSecret timeout) = some lD)
    (hR : findLock s (lockIdOf H token caller hashedSecret timeout) = some lR) :
    ((∃ s', unlock H tOut now caller token creator secret timeout s = .ok s') → now < lU.timeout)
    ∧ (lU.timeout ≤ now →
        unlock H tOut now caller token creator secret timeout s
          = .error (.LockTimedOut (lockIdOf H token creator (H (toBytesBE 32 secret)) timeout)))
    ∧ ((∃ s', decline H tOut now caller token creator hashedSecret timeout s = .ok s') →
        now < lD.timeout)
    ∧ (lD.timeout ≤ now →
        decline H tOut now caller token creator hashedSecret timeout s
          = .error (.LockTimedOut (lockIdOf H token creator hashedSecret timeout)))
    ∧ ((∃ s', retrieve H tOut now caller token recipient hashedSecret timeout s = .ok s') →
        lR.timeout ≤ now)
    ∧ (now < lR.timeout →
        retrieve H tOut now caller token recipient hashedSecret timeout s
          = .error (.LockNotTimedOut (lockIdOf H token caller hashedSecret timeout))) := by
  simp only [unlock_eq_of_found H tOut now caller token creator secret timeout s lU hU,
    decline_eq_of_found H tOut now caller token creator hashedSecret timeout s lD hD,
    retrieve_eq_of_found H tOut now caller token recipient hashedSecret timeout s lR hR]
  refine ⟨?_, ?_, ?_, ?_, ?_, ?_⟩
  · rintro ⟨s', hs⟩
    by_cases h1 : lU.timeout ≤ now
    · simp [h1] at hs
    · omega
  · intro h1
    simp [h1]
  · rintro ⟨s', hs⟩
    by_cases h1 : lD.timeout ≤ now
    · simp [h1] at hs
    · omega
  · intro h1
    simp [h1]
  · rintro ⟨s', hs⟩
    by_cases h1 : now < lR.timeout
    · simp [h1] at hs
    · omega
  · intro h1
    simp [h1]

/-- Witness for C3: on the single open lock `(token 1, creator 2,
recipient 7, hashedSecret 0, timeout 5, value 42)` with a constant hash,
unlock succeeds at time 3 (so 3 < 5), unlock and decline fail
`LockTimedOut` at time 9, retrieve succeeds at time 9 (so 5 ≤ 9) and
fails `LockNotTimedOut` at time 3. -/
theorem claim3_witness :
    3 < 5
    ∧ unlock (fun _ => 0) (fun _ _ _ => true) 9 7 1 2 99 5 [(0, ⟨1, 2, 7, 0, 5, 42⟩)]
        = .error (.LockTimedOut 0)
    ∧ decline (fun _ => 0) (fun _ _ _ => true) 9 7 1 2 0 5 [(0, ⟨1, 2, 7, 0, 5, 42⟩)]
        = .error (.LockTimedOut 0)
    ∧ 5 ≤ 9
    ∧ retrieve (fun _ => 0) (fun _ _ _ => true) 3 7 1 3 0 5 [(0, ⟨1, 2, 7, 0, 5, 42⟩)]
        = .error (.LockNotTimedOut 0) := by
  have hA := claim3_timing_windows (fun _ => 0) (fun _ _ _ => true) 3 7 1 2 3 99 0 5
    [(0, ⟨1, 2, 7, 0, 5, 42⟩)] ⟨1, 2, 7, 0, 5, 42⟩ ⟨1, 2, 7, 0, 5, 42⟩ ⟨1, 2, 7, 0, 5, 42⟩
    rfl rfl rfl
  have hB := claim3_timing_windows (fun _ => 0) (fun _ _ _ => true) 9 7 1 2 3 99 0 5
    [(0, ⟨1, 2, 7, 0, 5, 42⟩)] ⟨1, 2, 7, 0, 5, 42⟩ ⟨1, 2, 7, 0, 5, 42⟩ ⟨1, 2, 7, 0, 5, 42⟩
    rfl rfl rfl
  exact ⟨hA.1 ⟨[], rfl⟩, hB.2.1 (by decide), hB.2.2.2.1 (by decide),
    hB.2.2.2.2.1 ⟨[], rfl⟩, hA.2.2.2.2.2 (by decide)⟩

/-- Claim C4: every operation is atomic — on any error the observed
lock table is exactly the table before the call; in particular a
creation failing the custody pull rejects with `TransferInFailed` and
records no lock, and a resolution failing the custody push rejects with
`TransferOutFailed` and leaves the lock open for a later retry. -/
theorem claim4_atomicity (H : List Nat → Nat) (tIn tOut : Nat → Nat → Nat → Bool)
    (now caller : Nat)
    (token creator recipient hashedSecret secret timeout value : Nat)
    (sellAssetId sellPrice buyAssetId buyLockId : Nat)
    (s : LockState) (e : SwapError) (l : Lock) :
    (lockBuy H tIn caller token recipient hashedSecret timeout value sellAssetId sellPrice s
        = .error e →
      stepState (lockBuy H tIn caller token recipient hashedSecret timeout value
        sellAssetId sellPrice s) s = s)
    ∧ (lockSell H tIn caller token recipient hashedSecret timeout value buyAssetId buyLockId s
        = .error e →
      stepState (lockSell H tIn caller token recipient hashedSecret timeout value
        buyAssetId buyLockId s) s = s)
    ∧ (unlock H tOut now caller token creator secret timeout s = .error e →
      stepState (unlock H tOut now caller token creator secret timeout s) s = s)
    ∧ (retrieve H tOut now caller token recipient hashedSecret timeout s = .error e →
      stepState (retrieve H tOut now caller token recipient hashedSecret timeout s) s = s)
    ∧ (decline H tOut now caller token creator hashedSecret timeout s = .error e →
      stepState (decline H tOut now caller token creator hashedSecret timeout s) s = s)
    ∧ (findLock s (lockIdOf H token caller hashedSecret timeout) = none →
      tIn token caller value = false →
      lockBuy H tIn caller token recipient hashedSecret timeout value sellAssetId sellPrice s
        = .error (.TransferInFailed token caller value)
      ∧ findLock (stepState (lockBuy H tIn caller token recipient hashedSecret timeout value
          sellAssetId sellPrice s) s) (lockIdOf H token caller hashedSecret timeout) = none)
    ∧ (findLock s (lockIdOf H token creator (H (toBytesBE 32 secret)) timeout) = some l →
      now < l.timeout → caller = l.recipient → tOut token caller l.value = false →
      unlock H tOut now caller token creator secret timeout s
        = .error (.TransferOutFailed token caller l.value)
      ∧ findLock (stepState (unlock H tOut now caller token creator secret timeout s) s)
          (lockIdOf H token creator (H (toBytesBE 32 secret)) timeout) = some l) := by
  refine ⟨?_, ?_, ?_, ?_, ?_, ?_, ?_⟩
  · intro h
    rw [h]
    rfl
  · intro h
    rw [h]
    rfl
  · intro h
    rw [h]
    rfl
  · intro h
    rw [h]
    rfl
  · intro h
    rw [h]
    rfl
  · intro h0 h1
    have hb : lockBuy H tIn caller token recipient hashedSecret timeout value
        sellAssetId sellPrice s = .error (.TransferInFailed token caller value) := by
      rw [lockBuy_eq_of_none H tIn caller token recipient hashedSecret timeout value
        sellAssetId sellPrice s h0, h1]
      simp
    refine ⟨hb, ?_⟩
    rw [hb]
    exact h0
  · intro h0 h1 h2 h3
    have hu : unlock H tOut now caller token creator secret timeout s
        = .error (.TransferOutFailed token caller l.value) := by
      rw [unlock_eq_of_found H tOut now caller token creator secret timeout s l h0]
      rw [if_neg (Nat.not_le.mpr h1), if_neg (fun hne => hne h2), h3]
      simp
    refine ⟨hu, ?_⟩
    rw [hu]
    exact h0

/-- Witness for C4: with an always-failing pull, creating on the empty
table rejects with `TransferInFailed` and still records nothing; with an
always-failing push, unlocking the open lock rejects with
`TransferOutFailed` and the lock stays open. -/
theorem claim4_witness :
    lockBuy (fun _ => 0) (fun _ _ _ => false) 7 1 3 0 5 42 6 9 []
      = .error (.TransferInFailed 1 7 42)
    ∧ stepState (lockBuy (fun _ => 0) (fun _ _ _ => false) 7 1 3 0 5 42 6 9 []) [] = []
    ∧ findLock (stepState (lockBuy (fun _ => 0) (fun _ _ _ => false) 7 1 3 0 5 42 6 9 []) []) 0
      = none
    ∧ unlock (fun _ => 0) (fun _ _ _ => false) 3 7 1 2 99 5 [(0, ⟨1, 2, 7, 0, 5, 42⟩)]
      = .error (.TransferOutFailed 1 7 42)
    ∧ findLock (stepState (unlock (fun _ => 0) (fun _ _ _ => false) 3 7 1 2 99 5
        [(0, ⟨1, 2, 7, 0, 5, 42⟩)]) [(0, ⟨1, 2, 7, 0, 5, 42⟩)]) 0 = some ⟨1, 2, 7, 0, 5, 42⟩ := by
  have hA := claim4_atomicity (fun _ => 0) (fun _ _ _ => false) (fun _ _ _ => false) 3 7
    1 2 3 0 99 5 42 6 9 0 0 [] (.TransferInFailed 1 7 42) ⟨1, 2, 7, 0, 5, 42⟩
  have hB := claim4_atomicity (fun _ => 0) (fun _ _ _ => false) (fun _ _ _ => false) 3 7
    1 2 3 0 99 5 42 6 9 0 0 [(0, ⟨1, 2, 7, 0, 5, 42⟩)] (.TransferOutFailed 1 7 42)
    ⟨1, 2, 7, 0, 5, 42⟩
  have hA6 := hA.2.2.2.2.2.1 rfl rfl
  have hB7 := hB.2.2.2.2.2.2 rfl (by decide) rfl rfl
  exact ⟨hA6.1, hA.1 hA6.1, hA6.2, hB7.1, hB7.2⟩

/-- Claim C5: while a lock derived from `(assetContract, creator,
hashedSecret, timeout)` is open, any second creation (`lockBuy` or
`lockSell`) with the identical tuple — regardless of recipient or
value — is rejected with `LockAlreadyExists`; after the first lock is
resolved (here by retrieve), a creation with the same tuple is accepted
again. -/
theorem claim5_unique_while_open (H : List Nat → Nat)
    (tIn tOut : Nat → Nat → Nat → Bool) (now caller : Nat)
    (token recipient recipient' hashedSecret timeout value value' : Nat)
    (sellAssetId sellPrice sellAssetId' sellPrice' buyAssetId buyLockId : Nat)
    (s : LockState)
    (h0 : findLock s (lockIdOf H token caller hashedSecret timeout) = none)
    (h1 : tIn token caller value = true)
    (h2 : tOut token caller value = true)
    (h3 : timeout ≤ now) :
    ∃ s1, lockBuy H tIn caller token recipient hashedSecret timeout value
        sellAssetId sellPrice s = .ok s1
      ∧ lockBuy H tIn caller token recipient' hashedSecret timeout value'
          sellAssetId' sellPrice' s1
        = .error (.LockAlreadyExists (lockIdOf H token caller hashedSecret timeout))
      ∧ lockSell H tIn caller token recipient' hashedSecret timeout value'
          buyAssetId buyLockId s1
        = .error (.LockAlreadyExists (lockIdOf H token caller hashedSecret timeout))
      ∧ ∃ s2, retrieve H tOut now caller token recipient hashedSecret timeout s1 = .ok s2
        ∧ ∃ s3, lockBuy H tIn caller token recipient hashedSecret timeout value
            sellAssetId sellPrice s2 = .ok s3 := by
  refine ⟨insertLock s (lockIdOf H token caller hashedSecret timeout)
    ⟨token, caller, recipient, hashedSecret, timeout, value⟩, ?_, ?_, ?_, ?_⟩
  · rw [lockBuy_eq_of_none H tIn caller token recipient hashedSecret timeout value
      sellAssetId sellPrice s h0, h1]
    simp
  · exact lockBuy_eq_of_found H tIn caller token recipient' hashedSecret timeout value'
      sellAssetId' sellPrice' _ _ (findLock_insertLock_self s _ _)
  · exact lockSell_eq_of_found H tIn caller token recipient' hashedSecret timeout value'
      buyAssetId buyLockId _ _ (findLock_insertLock_self s _ _)
  · refine ⟨eraseLock (insertLock s (lockIdOf H token caller hashedSecret timeout)
      ⟨token, caller, recipient, hashedSecret, timeout, value⟩)
      (lockIdOf H token caller hashedSecret timeout), ?_, ?_⟩
    · rw [retrieve_eq_of_found H tOut now caller token recipient hashedSecret timeout _ _
        (findLock_insertLock_self s _ _)]
      have hnlt : ¬ now <
          (Lock.mk token caller recipient hashedSecret timeout value).timeout :=
        Nat.not_lt.mpr h3
      have htv : tOut token caller
          (Lock.mk token caller recipient hashedSecret timeout value).value = true := h2
      rw [if_neg hnlt, htv]
      simp
    · refine ⟨insertLock (eraseLock (insertLock s (lockIdOf H token caller hashedSecret timeout)
        ⟨token, caller, recipient, hashedSecret, timeout, value⟩)
        (lockIdOf H token caller hashedSecret timeout))
        (lockIdOf H token caller hashedSecret timeout)
        ⟨token, caller, recipient, hashedSecret, timeout, value⟩, ?_⟩
      rw [lockBuy_eq_of_none H tIn caller token recipient hashedSecret timeout value
        sellAssetId sellPrice _ (findLock_eraseLock_self _ _), h1]
      simp

/-- Witness for C5: with a constant hash, always-succeeding transfers,
creation on the empty table succeeds, the identical tuple with a
different recipient and value is rejected with `LockAlreadyExists` on
both creation paths, and after retrieve at the timeout the same tuple is
accepted again. -/
theorem claim5_witness :
    ∃ s1, lockBuy (fun _ => 0) (fun _ _ _ => true) 7 1 3 0 5 42 6 9 [] = .ok s1
      ∧ lockBuy (fun _ => 0) (fun _ _ _ => true) 7 1 4 0 5 43 8 2 s1
        = .error (.LockAlreadyExists 0)
      ∧ lockSell (fun _ => 0) (fun _ _ _ => true) 7 1 4 0 5 43 11 12 s1
        = .error (.LockAlreadyExists 0)
      ∧ ∃ s2, retrieve (fun _ => 0) (fun _ _ _ => true) 5 7 1 3 0 5 s1 = .ok s2
        ∧ ∃ s3, lockBuy (fun _ => 0) (fun _ _ _ => true) 7 1 3 0 5 42 6 9 s2 = .ok s3 :=
  claim5_unique_while_open (fun _ => 0) (fun _ _ _ => true) (fun _ _ _ => true) 5 7
    1 3 4 0 5 42 43 6 9 8 2 11 12 [] rfl rfl rfl (by decide)

/-- Claim C6: the unlock operation takes exactly `(assetContract,
creator, secret, timeout)` — the recipient is not an input parameter —
recomputes `hashedSecret` by hashing the supplied secret, derives the
lock id from `(assetContract, creator, hashedSecret, timeout)`, and
succeeds only when the caller equals the lock's stored recipient, who is
then paid the custodied value. -/
theorem claim6_unlock_contract (H : List Nat → Nat) (tOut : Nat → Nat → Nat → Bool)
    (now caller token creator secret timeout : Nat) (s s' : LockState) :
    unlockFn.inputs = [⟨"token", "address", false⟩, ⟨"creator", "address", false⟩,
        ⟨"secret", "bytes32", false⟩, ⟨"timeout", "uint256", false⟩]
    ∧ "recipient" ∉ paramNames unlockFn
    ∧ (unlock H tOut now caller token creator secret timeout s = .ok s' →
      ∃ l, findLock s (lockIdOf H token creator (H (toBytesBE 32 secret)) timeout) = some l
        ∧ caller = l.recipient
        ∧ now < l.timeout
        ∧ tOut token caller l.value = true
        ∧ s' = eraseLock s (lockIdOf H token creator (H (toBytesBE 32 secret)) timeout)) := by
  refine ⟨rfl, by decide, ?_⟩
  intro h
  cases hf : findLock s (lockIdOf H token creator (H (toBytesBE 32 secret)) timeout) with
  | none =>
    rw [unlock_eq_of_none H tOut now caller token creator secret timeout s hf] at h
    exact absurd h (by simp)
  | some l =>
    rw [unlock_eq_of_found H tOut now caller token creator secret timeout s l hf] at h
    by_cases h1 : l.timeout ≤ now
    · rw [if_pos h1] at h
      exact absurd h (by simp)
    · rw [if_neg h1] at h
      by_cases h2 : caller ≠ l.recipient
      · rw [if_pos h2] at h
        exact absurd h (by simp)
      · rw [if_neg h2] at h
        by_cases h3 : tOut token caller l.value = true
        · rw [if_pos h3] at h
          injection h with h4
          exact ⟨l, rfl, not_not.mp h2, Nat.lt_of_not_le h1, h3, h4.symm⟩
        · rw [if_neg h3] at h
          exact absurd h (by simp)

/-- Witness for C6: a successful unlock at time 3 on the open lock with
recipient 7 and timeout 5, called by 7 with secret 99 under a constant
hash. -/
theorem claim6_witness :
    unlockFn.inputs = [⟨"token", "address", false⟩, ⟨"creator", "address", false⟩,
        ⟨"secret", "bytes32", false⟩, ⟨"timeout", "uint256", false⟩]
    ∧ "recipient" ∉ paramNames unlockFn
    ∧ ∃ l, findLock [(0, (⟨1, 2, 7, 0, 5, 42⟩ : Lock))] 0 = some l
        ∧ 7 = l.recipient
        ∧ 3 < l.timeout
        ∧ (fun _ _ _ => true : Nat → Nat → Nat → Bool) 1 7 l.value = true
        ∧ ([] : LockState) = eraseLock [(0, ⟨1, 2, 7, 0, 5, 42⟩)] 0 := by
  have h := claim6_unlock_contract (fun _ => 0) (fun _ _ _ => true) 3 7 1 2 99 5
    [(0, ⟨1, 2, 7, 0, 5, 42⟩)] []
  exact ⟨h.1, h.2.1, h.2.2 rfl⟩

/-- Claim C8: `getLockValue` is read-only (declared `view` in the ABI
and returning only a value, never a state) and, for every lockId,
returns the custodied value when the lock is open and the not-found
condition when it does not exist or has been resolved. -/
theorem claim8_getLockValue (s : LockState) (lockId : Nat) (l : Lock) :
    getLockValueFn.mutability = some "view"
    ∧ (findLock s lockId = some l → getLockValue s lockId = .ok l.value)
    ∧ (findLock s lockId = none → getLockValue s lockId = .error (.LockNotFound lockId)) := by
  refine ⟨rfl, ?_, ?_⟩ <;> intro h <;> simp [getLockValue, h]

/-- Witness for C8: the open lock of value 42 at id 5 is returned; the
empty table yields `LockNotFound`. -/
theorem claim8_witness :
    getLockValueFn.mutability = some "view"
    ∧ getLockValue [(5, (⟨1, 2, 7, 0, 9, 42⟩ : Lock))] 5 = .ok 42
    ∧ getLockValue [] 5 = .error (.LockNotFound 5) :=
  ⟨(claim8_getLockValue [] 5 ⟨1, 2, 7, 0, 9, 42⟩).1,
   (claim8_getLockValue [(5, ⟨1, 2, 7, 0, 9, 42⟩)] 5 ⟨1, 2, 7, 0, 9, 42⟩).2.1 rfl,
   (claim8_getLockValue [] 5 ⟨1, 2, 7, 0, 9, 42⟩).2.2 rfl⟩
